import Mathlib

/-!
Verification of the documentation retrieval engine of the Cedar MCP server.

The embedded functions mirror, statement for statement, the Python sources:
  - `cedar_mcp/services/docs.py`            (`DocsIndex`)
  - `cedar_mcp/services/mastra_docs.py`     (`MastraDocsIndex`)
  - `cedar_mcp/services/semantic_search.py` (`SemanticSearchService`)
  - `cedar_mcp/tools/search_docs.py`        (`SearchDocsTool._detect_doc_type`)

Modelling conventions:
  - Python strings are Lean `String`s; tokens are `List Char`.
  - Scores are integer-valued in the source (sums of integer hit counts, with
    integer weights), so they are modelled as `Nat` even where Python uses
    `float`; every float arithmetic in the keyword scorer is exact on these
    integers.  The semantic fallback's term-overlap ratio genuinely divides,
    so it is modelled with `Rat` (exact where Python uses binary floats; none
    of the verified properties depends on the rounding of those ratios).
  - Python's `re.findall(rf"\b(tok)\w*\b", normalized)` over normalized text
    (which consists only of `[a-z0-9]` words separated by single spaces)
    counts exactly the words of which `tok` is a prefix; it is modelled that
    way.
  - Python's stable `list.sort(key=(score, ntok), reverse=True)` over a list
    whose elements carry pairwise-distinct, increasing original indexes is
    the unique ordering sorted by (score desc, ntok desc, index asc); it is
    modelled as `List.insertionSort` by that total order.
  - `lst[:k]` is modelled by `pySliceTo` including Python's negative-index
    semantics.
  - Effectful code (`semantic_search.py`) is modelled with explicit `Except`
    values for each external call outcome (`RemoteEnv`), and `try/except`
    blocks as matches on those `Except` values.
-/

namespace CedarRetrieval

/-! ### Tokenizer / normalizer (docs.py `normalize` + `tokenize`) -/

/-- A character of the normalized alphabet `[a-z0-9]`.  `normalize` lowercases
and replaces every character outside `[a-z0-9\s]` by a space, so after
lowercasing, a character survives iff it satisfies this predicate. -/
def isLowerAlnum (c : Char) : Bool :=
  ('a' ≤ c && c ≤ 'z') || ('0' ≤ c && c ≤ '9')

/-- Worker for `normWords`: scans the lowered characters, accumulating the
current word (reversed) in `buf`; every character that does not normalize to
`[a-z0-9]` acts as a separator (Python turns it into a space and then splits
on whitespace). -/
def normWordsGo : List Char → List Char → List (List Char)
  | [], buf => if buf = [] then [] else [buf.reverse]
  | c :: cs, buf =>
    let d := c.toLower
    if isLowerAlnum d then normWordsGo cs (d :: buf)
    else if buf = [] then normWordsGo cs [] else buf.reverse :: normWordsGo cs []

/-- The words of `normalize(text)` (docs.py lines 542-546): lowercase,
replace `[^a-z0-9\s]` by spaces, collapse whitespace, and split.  The result
is the list of maximal `[a-z0-9]` runs of the lowered text. -/
def normWords (s : String) : List (List Char) :=
  normWordsGo s.data []

/-- `tokenize` (docs.py lines 548-552 / mastra_docs.py lines 152-156): keep
words of length ≥ 3 plus a short-token allow-list. -/
def tokenizeWith (whitelist : List (List Char)) (s : String) : List (List Char) :=
  (normWords s).filter (fun t => 3 ≤ t.length || whitelist.contains t)

/-- docs.py line 551: `{"ui", "os", "ai", "llm", "sse", "ux"}`. -/
def docsShortWhitelist : List (List Char) :=
  ["ui", "os", "ai", "llm", "sse", "ux"].map String.data

/-- mastra_docs.py line 155: `{"mcp", "ai", "llm", "api", "jwt", "cli", "sdk"}`. -/
def mastraShortWhitelist : List (List Char) :=
  ["mcp", "ai", "llm", "api", "jwt", "cli", "sdk"].map String.data

/-- `list(dict.fromkeys(xs))`: de-duplicate keeping first occurrences. -/
def dedupFirstGo [DecidableEq α] (seen : List α) : List α → List α
  | [] => []
  | x :: xs => if x ∈ seen then dedupFirstGo seen xs else x :: dedupFirstGo (x :: seen) xs

/-- De-duplicate preserving first-occurrence order. -/
def dedupFirst [DecidableEq α] (xs : List α) : List α :=
  dedupFirstGo [] xs

/-- Query tokens of `DocsIndex.search` (docs.py line 554). -/
def queryTokensDocs (q : String) : List (List Char) :=
  dedupFirst (tokenizeWith docsShortWhitelist q)

/-- Query tokens of `MastraDocsIndex.search` (mastra_docs.py line 158). -/
def queryTokensMastra (q : String) : List (List Char) :=
  dedupFirst (tokenizeWith mastraShortWhitelist q)

/-- `len(re.findall(rf"\b{re.escape(token)}\w*\b", text))` where `text` is
normalized: the number of words of which `token` is a prefix. -/
def countPrefixHits (tok : List Char) (words : List (List Char)) : Nat :=
  (words.filter (fun w => tok.isPrefixOf w)).length

/-! ### The keyword scorer of `DocsIndex.search` (docs.py lines 558-592) -/

/-- `DocChunk` (docs.py lines 9-13). -/
structure DocChunk where
  source : String
  heading : Option String
  content : String
deriving DecidableEq, Repr

/-- Per-token weighted hits for one chunk (docs.py lines 566-574):
`token_total = heading_hits * 2 + body_hits`; tokens with `token_total > 0`
are recorded in insertion order together with the chunk score. -/
def docsScoreFn (qtoks : List (List Char)) (c : DocChunk) : Nat × List (List Char × Nat) :=
  let headingWords := normWords (c.heading.getD "")
  let bodyWords := normWords c.content
  let hits := qtoks.filterMap (fun tok =>
    let total := countPrefixHits tok headingWords * 2 + countPrefixHits tok bodyWords
    if 0 < total then some (tok, total) else none)
  ((hits.map Prod.snd).sum, hits)

/-- One entry of the `scored` list, tagged with the original chunk index
(the position in `self.chunks`, which Python's stable sort preserves on
ties). -/
structure ScoredEntry (α : Type) where
  idx : Nat
  chunk : α
  score : Nat
  hits : List (List Char × Nat)
deriving DecidableEq, Repr

/-- Builds `scored` (docs.py lines 560-577 / mastra_docs.py lines 164-185):
chunks with positive score, in chunk order, tagged with their index. -/
def scoredAux (f : α → Nat × List (List Char × Nat)) : Nat → List α → List (ScoredEntry α)
  | _, [] => []
  | i, c :: cs =>
    if 0 < (f c).1 then ⟨i, c, (f c).1, (f c).2⟩ :: scoredAux f (i + 1) cs
    else scoredAux f (i + 1) cs

/-- The comparison realized by Python's stable
`scored.sort(key=lambda x: (x[0], len(x[2])), reverse=True)`:
score descending, then distinct-matched-token count descending, and (because
the sort is stable and the entries arrive in strictly increasing `idx` order)
original index ascending on ties. -/
def entKeyLe (a b : ScoredEntry α) : Prop :=
  b.score < a.score ∨
    (a.score = b.score ∧
      (b.hits.length < a.hits.length ∨
        (a.hits.length = b.hits.length ∧ a.idx ≤ b.idx)))

instance (a b : ScoredEntry α) : Decidable (entKeyLe a b) := by
  unfold entKeyLe; infer_instance

instance : IsTotal (ScoredEntry α) entKeyLe :=
  ⟨by intro a b; unfold entKeyLe; omega⟩

instance : IsTrans (ScoredEntry α) entKeyLe :=
  ⟨by intro a b c; unfold entKeyLe; omega⟩

/-- The sort of docs.py line 580 / mastra_docs.py line 188. -/
def rankEntries (l : List (ScoredEntry α)) : List (ScoredEntry α) :=
  List.insertionSort entKeyLe l

/-- Python `lst[:k]` for an `int` slice bound `k` (negative bounds count from
the end). -/
def pySliceTo (l : List α) (k : Int) : List α :=
  if 0 ≤ k then l.take k.toNat else l.take ((l.length : Int) + k).toNat

/-- The ranked, truncated entry list of `DocsIndex.search`
(docs.py lines 539-581), still carrying original chunk indexes:
`scored[: max(0, int(limit))]` after the stable sort. -/
def docsRanked (chunks : List DocChunk) (q : String) (limit : Int) : List (ScoredEntry DocChunk) :=
  if q = "" then []
  else
    let qtoks := queryTokensDocs q
    if qtoks = [] then []
    else (rankEntries (scoredAux (docsScoreFn qtoks) 0 chunks)).take (max 0 limit).toNat

/-- One result dict of `DocsIndex.search` (docs.py lines 583-592). -/
structure DocsResult where
  source : String
  heading : Option String
  content : String
  matchCount : Nat
  matchedTokens : List (List Char × Nat)
deriving DecidableEq, Repr

/-- `content[:2000]` (Python slices by code point). -/
def truncate2000 (s : String) : String :=
  ⟨s.data.take 2000⟩

/-- `DocsIndex.search` (docs.py lines 531-592). -/
def docsSearch (chunks : List DocChunk) (q : String) (limit : Int) : List DocsResult :=
  (docsRanked chunks q limit).map (fun e =>
    ⟨e.chunk.source, e.chunk.heading, truncate2000 e.chunk.content, e.score, e.hits⟩)

/-! ### The keyword scorer of `MastraDocsIndex.search` (mastra_docs.py) -/

/-- `MastraDocChunk` (mastra_docs.py lines 10-16). -/
structure MastraDocChunk where
  source : String
  heading : Option String
  content : String
  url : Option String := none
  sectionTag : Option String := none   -- the Python field `section`
deriving DecidableEq, Repr

/-- mastra_docs.py line 177: tokens `["mastra", "agent", "workflow", "tool",
"memory"]` get weight 2. -/
def mastraSalient : List (List Char) :=
  ["mastra", "agent", "workflow", "tool", "memory"].map String.data

/-- Per-token weighted hits (mastra_docs.py lines 170-182):
`token_total = (heading_hits * 3 + body_hits) * weight` with `weight = 2.0`
for Mastra-salient tokens, else `1.0` (exact on integers). -/
def mastraScoreFn (qtoks : List (List Char)) (c : MastraDocChunk) : Nat × List (List Char × Nat) :=
  let headingWords := normWords (c.heading.getD "")
  let bodyWords := normWords c.content
  let hits := qtoks.filterMap (fun tok =>
    let weight := if mastraSalient.contains tok then 2 else 1
    let total := (countPrefixHits tok headingWords * 3 + countPrefixHits tok bodyWords) * weight
    if 0 < total then some (tok, total) else none)
  ((hits.map Prod.snd).sum, hits)

/-- The ranked, truncated entry list of `MastraDocsIndex.search`
(mastra_docs.py lines 143-189): note `scored[:limit]` with no lower clamp. -/
def mastraRanked (chunks : List MastraDocChunk) (q : String) (limit : Int) :
    List (ScoredEntry MastraDocChunk) :=
  if q = "" then []
  else
    let qtoks := queryTokensMastra q
    if qtoks = [] then []
    else pySliceTo (rankEntries (scoredAux (mastraScoreFn qtoks) 0 chunks)) limit

/-- One result dict of `MastraDocsIndex.search` (mastra_docs.py lines 191-207). -/
structure MastraResult where
  source : String
  heading : Option String
  content : String
  matchCount : Nat
  matchedTokens : List (List Char × Nat)
  url : Option String
  sectionTag : Option String   -- the Python field `section`
deriving DecidableEq, Repr

/-- `MastraDocsIndex.search` (mastra_docs.py lines 138-209). -/
def mastraSearch (chunks : List MastraDocChunk) (q : String) (limit : Int) : List MastraResult :=
  (mastraRanked chunks q limit).map (fun e =>
    ⟨e.chunk.source, e.chunk.heading, truncate2000 e.chunk.content, e.score, e.hits,
      e.chunk.url, e.chunk.sectionTag⟩)

end CedarRetrieval

namespace CedarRetrieval

/-! ### Ordering facts about the scored list and its sort -/

theorem scoredAux_le_idx {f : α → Nat × List (List Char × Nat)} :
    ∀ (i : Nat) (cs : List α) (e : ScoredEntry α), e ∈ scoredAux f i cs → i ≤ e.idx := by
  intro i cs
  induction cs generalizing i with
  | nil => intro e h; simp [scoredAux] at h
  | cons c cs ih =>
    intro e h
    simp only [scoredAux] at h
    split at h
    · rcases List.mem_cons.mp h with rfl | h
      · exact le_refl _
      · exact le_trans (Nat.le_succ i) (ih (i + 1) e h)
    · exact le_trans (Nat.le_succ i) (ih (i + 1) e h)

theorem scoredAux_pairwise_idx {f : α → Nat × List (List Char × Nat)} :
    ∀ (i : Nat) (cs : List α),
      (scoredAux f i cs).Pairwise (fun a b => a.idx < b.idx) := by
  intro i cs
  induction cs generalizing i with
  | nil => simp [scoredAux]
  | cons c cs ih =>
    simp only [scoredAux]
    split
    · exact List.Pairwise.cons
        (fun b hb => Nat.lt_of_lt_of_le (Nat.lt_succ_self i) (scoredAux_le_idx (i + 1) cs b hb))
        (ih (i + 1))
    · exact ih (i + 1)

/-- The ordering the specification claims for search results: score strictly
descending, then distinct-matched-token count strictly descending, and on
fully tied keys the original chunk index strictly ascending. -/
def claimOrd (a b : ScoredEntry α) : Prop :=
  b.score < a.score ∨
    (a.score = b.score ∧ b.hits.length < a.hits.length) ∨
    (a.score = b.score ∧ a.hits.length = b.hits.length ∧ a.idx < b.idx)

theorem rankEntries_pairwise_claimOrd (l : List (ScoredEntry α))
    (hidx : l.Pairwise (fun a b => a.idx < b.idx)) :
    (rankEntries l).Pairwise claimOrd := by
  have hsorted : (rankEntries l).Pairwise entKeyLe :=
    List.sorted_insertionSort entKeyLe l
  have hperm : (rankEntries l).Perm l := List.perm_insertionSort entKeyLe l
  have hne : l.Pairwise (fun a b => a.idx ≠ b.idx) :=
    hidx.imp (fun h => Nat.ne_of_lt h)
  have hne' : (rankEntries l).Pairwise (fun a b => a.idx ≠ b.idx) :=
    (hperm.pairwise_iff (fun hab => Ne.symm hab)).mpr hne
  refine (hsorted.and hne').imp ?_
  intro a b hab
  rcases hab with ⟨hle, hne⟩
  unfold entKeyLe at hle
  unfold claimOrd
  omega

theorem pairwise_pySliceTo {R : α → α → Prop} (l : List α) (k : Int)
    (h : l.Pairwise R) : (pySliceTo l k).Pairwise R := by
  unfold pySliceTo
  split
  · exact h.sublist (List.take_sublist _ l)
  · exact h.sublist (List.take_sublist _ l)

/-- **C6.** For every query and index, the ranked entry list underlying
`search` (which `search` projects to result dicts in order) is ordered by
score descending, then by count of distinct matched query tokens descending,
and entries with equal `(score, distinct-token-count)` keys appear in the
original chunk order of the index — for both `DocsIndex.search` and
`MastraDocsIndex.search`. -/
theorem docs_and_mastra_search_ranking_order :
    (∀ (chunks : List DocChunk) (q : String) (limit : Int),
      (docsRanked chunks q limit).Pairwise claimOrd) ∧
    (∀ (chunks : List MastraDocChunk) (q : String) (limit : Int),
      (mastraRanked chunks q limit).Pairwise claimOrd) := by
  constructor
  · intro chunks q limit
    unfold docsRanked
    split
    · exact List.Pairwise.nil
    · show List.Pairwise claimOrd
        (if queryTokensDocs q = [] then []
         else (rankEntries (scoredAux (docsScoreFn (queryTokensDocs q)) 0 chunks)).take
           (max 0 limit).toNat)
      split
      · exact List.Pairwise.nil
      · exact (rankEntries_pairwise_claimOrd _ (scoredAux_pairwise_idx 0 chunks)).sublist
          (List.take_sublist _ _)
  · intro chunks q limit
    unfold mastraRanked
    split
    · exact List.Pairwise.nil
    · show List.Pairwise claimOrd
        (if queryTokensMastra q = [] then []
         else pySliceTo (rankEntries (scoredAux (mastraScoreFn (queryTokensMastra q)) 0 chunks))
           limit)
      split
      · exact List.Pairwise.nil
      · exact pairwise_pySliceTo _ _
          (rankEntries_pairwise_claimOrd _ (scoredAux_pairwise_idx 0 chunks))

end CedarRetrieval

namespace CedarRetrieval

/-! ### C2: limit bound -/

/-- A two-chunk Mastra corpus in which both chunks match the query
`"mastra"`. -/
def mastraTwoChunkCorpus : List MastraDocChunk :=
  [⟨"m.txt", some "Mastra A", "mastra basics", none, none⟩,
   ⟨"m.txt", some "Mastra B", "more mastra text", none, none⟩]

/-- **C2, counterexample.** The claim `len(search(query, limit)) <=
max(limit, 0)` fails for `MastraDocsIndex.search`: with two matching chunks
and `limit = -1`, `scored[:limit]` drops only the last entry, so one result
is returned although `max(-1, 0) = 0`. -/
theorem mastra_search_negative_limit_counterexample :
    ¬ ((mastraSearch mastraTwoChunkCorpus "mastra" (-1)).length ≤ (max (-1 : Int) 0).toNat) := by
  decide

/-- **C2, amended.** `DocsIndex.search` returns at most `max(limit, 0)`
results for every integer limit (so in particular the empty list for every
`limit ≤ 0`); `MastraDocsIndex.search` returns at most `limit` results for
every `limit ≥ 0` (for negative limits Python's `scored[:limit]` instead
drops `|limit|` entries from the end). -/
theorem search_length_le_limit :
    (∀ (chunks : List DocChunk) (q : String) (limit : Int),
      (docsSearch chunks q limit).length ≤ (max limit 0).toNat) ∧
    (∀ (chunks : List MastraDocChunk) (q : String) (limit : Int), 0 ≤ limit →
      (mastraSearch chunks q limit).length ≤ limit.toNat) := by
  constructor
  · intro chunks q limit
    unfold docsSearch docsRanked
    rw [List.length_map]
    split
    · simp
    · show (if queryTokensDocs q = [] then []
           else (rankEntries (scoredAux (docsScoreFn (queryTokensDocs q)) 0 chunks)).take
             (max 0 limit).toNat).length ≤ (max limit 0).toNat
      split
      · simp
      · calc _ ≤ (max 0 limit).toNat := by
              rw [List.length_take]; exact min_le_left _ _
          _ = (max limit 0).toNat := by rw [max_comm]
  · intro chunks q limit hlim
    unfold mastraSearch mastraRanked
    rw [List.length_map]
    split
    · simp
    · show (if queryTokensMastra q = [] then []
           else pySliceTo (rankEntries (scoredAux (mastraScoreFn (queryTokensMastra q)) 0 chunks))
             limit).length ≤ limit.toNat
      split
      · simp
      · unfold pySliceTo
        rw [if_pos hlim, List.length_take]
        exact min_le_left _ _

/-- Witness for `search_length_le_limit` at concrete inputs. -/
theorem search_length_le_limit_witness :
    (docsSearch [] "query" 3).length ≤ (max (3 : Int) 0).toNat ∧
    (mastraSearch mastraTwoChunkCorpus "mastra" 1).length ≤ (1 : Int).toNat :=
  ⟨search_length_le_limit.1 [] "query" 3,
   search_length_le_limit.2 mastraTwoChunkCorpus "mastra" 1 (by decide)⟩

end CedarRetrieval

namespace CedarRetrieval

/-! ### C3: the streaming-scenario ranking -/

/-- The two-chunk corpus of the spec's streaming scenario. -/
def streamingScenarioCorpus : List DocChunk :=
  [⟨"doc", some "Streaming Setup", "configure SSE endpoint"⟩,
   ⟨"doc", some "Other", "streaming streaming streaming text"⟩]

/-- **C3, counterexample.** Searching the streaming-scenario corpus for
`"streaming"` with `limit = 5` does *not* rank the chunk headed
`"Streaming Setup"` first: its single heading hit is worth
`1 * heading_weight = 2`, which loses to the three body hits (score 3) of the
chunk headed `"Other"`. -/
theorem streaming_scenario_counterexample :
    (docsSearch streamingScenarioCorpus "streaming" 5).head?.map (fun r => r.heading)
      ≠ some (some "Streaming Setup") := by decide

/-- **C3, amended.** For the streaming-scenario corpus under docs.py's
heading weight of 2, `search("streaming", 5)` ranks the chunk headed
`"Other"` first with score 3 (three body hits) and the chunk headed
`"Streaming Setup"` second with score 2 (one heading hit times weight 2). -/
theorem streaming_scenario_ranking :
    (docsSearch streamingScenarioCorpus "streaming" 5).map (fun r => (r.heading, r.matchCount))
      = [(some "Other", 3), (some "Streaming Setup", 2)] := by decide

/-! ### C7: empty queries -/

/-- **C7.** For every index, every limit and every query whose normalization
yields an empty token list — in particular the empty query string,
whitespace-only queries, and queries all of whose words are shorter than
three characters and outside the short-token allow-list — both
`DocsIndex.search` and `MastraDocsIndex.search` return the empty list (and,
being total functions built from total operations, never raise). -/
theorem empty_token_queries_return_empty (dchunks : List DocChunk)
    (mchunks : List MastraDocChunk) (q : String) (limit : Int) :
    (queryTokensDocs q = [] → docsSearch dchunks q limit = []) ∧
    (queryTokensMastra q = [] → mastraSearch mchunks q limit = []) := by
  constructor
  · intro h
    unfold docsSearch docsRanked
    split
    · rfl
    · show (if queryTokensDocs q = [] then []
           else (rankEntries (scoredAux (docsScoreFn (queryTokensDocs q)) 0 dchunks)).take
             (max 0 limit).toNat).map _ = []
      rw [if_pos h]; rfl
  · intro h
    unfold mastraSearch mastraRanked
    split
    · rfl
    · show (if queryTokensMastra q = [] then []
           else pySliceTo (rankEntries (scoredAux (mastraScoreFn (queryTokensMastra q)) 0 mchunks))
             limit).map _ = []
      rw [if_pos h]; rfl

/-- Witness for `empty_token_queries_return_empty`: the empty query on a
nonempty docs index, and a whitespace/short-token query on a nonempty Mastra
index. -/
theorem empty_token_queries_return_empty_witness :
    docsSearch streamingScenarioCorpus "" 5 = [] ∧
    mastraSearch mastraTwoChunkCorpus " a b!! " 5 = [] :=
  ⟨(empty_token_queries_return_empty streamingScenarioCorpus [] "" 5).1 (by decide),
   (empty_token_queries_return_empty [] mastraTwoChunkCorpus " a b!! " 5).2 (by decide)⟩

end CedarRetrieval

namespace CedarRetrieval

/-! ### C8: `SearchDocsTool._detect_doc_type` (search_docs.py lines 118-144) -/

/-- `needle in hay` for Python strings (contiguous substring test). -/
def containsSub (needle : List Char) : List Char → Bool
  | [] => needle.isEmpty
  | c :: t => needle.isPrefixOf (c :: t) || containsSub needle t

/-- search_docs.py lines 124-128: the Mastra-specific keywords. -/
def mastraKeywords : List String :=
  ["mastra", "agent", "workflow", "tool", "memory", "mcp",
   "jwt", "auth", "runtime", "context", "di", "dependency injection",
   "libsql", "postgres", "semantic recall", "working memory"]

/-- search_docs.py lines 131-135: the Cedar-specific keywords. -/
def cedarKeywords : List String :=
  ["cedar", "voice", "chat", "copilot", "mention", "floating",
   "chatinput", "voiceindicator", "voicebutton", "voicesettings",
   "agentic state", "spell", "ui", "frontend", "react", "component"]

/-- search_docs.py line 138/139: `sum(1 for kw in keywords if kw in
query_lower)` — the number of curated keywords occurring (case-insensitively,
as substrings) in the query. -/
def keywordScore (kws : List String) (queryLower : List Char) : Nat :=
  (kws.filter (fun kw => containsSub kw.data queryLower)).length

/-- `SearchDocsTool._detect_doc_type` (search_docs.py lines 118-144). -/
def detectDocType (q : String) : String :=
  let queryLower := q.data.map Char.toLower
  if keywordScore cedarKeywords queryLower < keywordScore mastraKeywords queryLower then "mastra"
  else "cedar"

/-- **C8.** For every query, the Index Selector counts the curated keywords
of each domain that occur case-insensitively as substrings of the query and
routes to the domain with the strictly higher count; whenever the counts are
equal (including both zero) it routes to the fixed default `"cedar"`
domain. -/
theorem detect_doc_type_routing (q : String) :
    (keywordScore cedarKeywords (q.data.map Char.toLower)
        < keywordScore mastraKeywords (q.data.map Char.toLower) →
      detectDocType q = "mastra") ∧
    (keywordScore mastraKeywords (q.data.map Char.toLower)
        < keywordScore cedarKeywords (q.data.map Char.toLower) →
      detectDocType q = "cedar") ∧
    (keywordScore mastraKeywords (q.data.map Char.toLower)
        = keywordScore cedarKeywords (q.data.map Char.toLower) →
      detectDocType q = "cedar") := by
  unfold detectDocType
  refine ⟨fun h => ?_, fun h => ?_, fun h => ?_⟩
  · rw [if_pos h]
  · rw [if_neg (by omega)]
  · rw [if_neg (by omega)]

/-- Witness for `detect_doc_type_routing`: a Mastra-leaning query, a
Cedar-leaning query, and a tied (keyword-free) query. -/
theorem detect_doc_type_routing_witness :
    detectDocType "Mastra workflow agents" = "mastra" ∧
    detectDocType "Cedar floating chat" = "cedar" ∧
    detectDocType "hello world" = "cedar" :=
  ⟨(detect_doc_type_routing "Mastra workflow agents").1 (by decide),
   (detect_doc_type_routing "Cedar floating chat").2.1 (by decide),
   (detect_doc_type_routing "hello world").2.2 (by decide)⟩

end CedarRetrieval

namespace CedarRetrieval

/-! ### C9: `MastraDocsIndex._parse_mastra_docs` (mastra_docs.py lines 51-136) -/

/-- `a.startswith(b)` (computed on code points so that concrete corpora can
be evaluated by `decide`; Lean's byte-based `String.startsWith` agrees). -/
def strStartsWith (s pre : String) : Bool :=
  pre.data.isPrefixOf s.data

/-- Python `str.strip()`: remove leading and trailing whitespace. -/
def pyStrip (s : String) : String :=
  ⟨((s.data.dropWhile Char.isWhitespace).reverse.dropWhile Char.isWhitespace).reverse⟩

/-- Python `"\n".join(lines)` (computed on code points). -/
def joinNL (lines : List String) : String :=
  ⟨List.intercalate ['\n'] (lines.map String.data)⟩

/-- Python truthiness of the `current_heading : Optional[str]` variable:
`None` and `""` are falsy. -/
def headingTruthy : Option String → Bool
  | none => false
  | some s => !(s == "")

/-- The parser state: `current_source`, `current_section`, `current_heading`
and `buffer` of `_parse_mastra_docs`. -/
structure MastraParseState where
  src : Option String
  sec : Option String
  hd : Option String
  buf : List String
deriving Repr

/-- The parser's initial state (mastra_docs.py lines 61-64). -/
def initMastraParseState : MastraParseState := ⟨none, none, none, []⟩

/-- The guarded chunk emission repeated at mastra_docs.py lines 72-82, 90-100,
108-118 and 126-136: `if buffer and current_heading:` then
`content = "\n".join(buffer).strip()`, and append a chunk only `if content`. -/
def flushChunk (path : String) (st : MastraParseState) : Option MastraDocChunk :=
  if !st.buf.isEmpty && headingTruthy st.hd then
    if pyStrip (joinNL st.buf) ≠ "" then
      some ⟨path, st.hd, pyStrip (joinNL st.buf), st.src, st.sec⟩
    else none
  else none

/-- The line loop of `_parse_mastra_docs` (mastra_docs.py lines 66-136):
source-URL lines reset `current_source`, `[EN] Source:` lines reset
`current_section`, markdown headings reset `current_heading` (each flushing
the pending buffer first), all other lines accumulate into the buffer; the
pending buffer is flushed once more at end of input. -/
def parseMastraLines (path : String) : List String → MastraParseState → List MastraDocChunk
  | [], st => (flushChunk path st).toList
  | l :: ls, st =>
    if strStartsWith l "Source: https://mastra.ai/" then
      (flushChunk path st).toList ++
        parseMastraLines path ls { st with buf := [], src := some (pyStrip ⟨l.data.drop 8⟩) }
    else if strStartsWith l "[EN] Source:" then
      (flushChunk path st).toList ++
        parseMastraLines path ls { st with buf := [], sec := some l }
    else if strStartsWith l "#" then
      (flushChunk path st).toList ++
        parseMastraLines path ls
          { st with buf := [], hd := some (pyStrip ⟨l.data.dropWhile (· = '#')⟩) }
    else parseMastraLines path ls { st with buf := st.buf ++ [l] }

theorem flushChunk_invariant {path : String} {st : MastraParseState} {c : MastraDocChunk}
    (hmem : c ∈ (flushChunk path st).toList) :
    (∃ h, c.heading = some h ∧ h ≠ "") ∧ c.content ≠ "" := by
  unfold flushChunk at hmem
  split at hmem
  · split at hmem
    · rename_i hguard hcontent
      simp only [Option.toList_some, List.mem_singleton] at hmem
      subst hmem
      refine ⟨?_, hcontent⟩
      have htr : headingTruthy st.hd = true := by
        cases Bool.and_eq_true_iff.mp hguard with
        | intro _ h => exact h
      cases hhd : st.hd with
      | none => rw [hhd] at htr; simp [headingTruthy] at htr
      | some h =>
        rw [hhd] at htr
        simp only [headingTruthy, Bool.not_eq_true', beq_eq_false_iff_ne] at htr
        exact ⟨h, by simp [hhd], htr⟩
    · simp at hmem
  · simp at hmem

/-- **C9.** Every chunk produced by the Mastra structured-provenance parser
has a non-`None`, nonempty heading and nonempty content; in particular, text
appearing before the first markdown heading of the file (or after a
source/section marker but before any heading) is discarded at the next flush
point and never becomes a heading-less chunk. -/
theorem mastra_parser_chunk_invariant (path : String) (lines : List String) :
    ∀ c ∈ parseMastraLines path lines initMastraParseState,
      (∃ h, c.heading = some h ∧ h ≠ "") ∧ c.content ≠ "" := by
  suffices hgen : ∀ (ls : List String) (st : MastraParseState),
      ∀ c ∈ parseMastraLines path ls st,
        (∃ h, c.heading = some h ∧ h ≠ "") ∧ c.content ≠ "" from
    hgen lines initMastraParseState
  intro ls
  induction ls with
  | nil => intro st c hc; exact flushChunk_invariant hc
  | cons l ls ih =>
    intro st c hc
    rw [parseMastraLines] at hc
    split at hc
    · rcases List.mem_append.mp hc with h | h
      · exact flushChunk_invariant h
      · exact ih _ c h
    · split at hc
      · rcases List.mem_append.mp hc with h | h
        · exact flushChunk_invariant h
        · exact ih _ c h
      · split at hc
        · rcases List.mem_append.mp hc with h | h
          · exact flushChunk_invariant h
          · exact ih _ c h
        · exact ih _ c hc

/-- Witness for `mastra_parser_chunk_invariant`: parsing a small file whose
pre-heading line is discarded and whose only chunk is headed `"Title"`. -/
theorem mastra_parser_chunk_invariant_witness :
    (∃ h, (⟨"f.txt", some "Title", "body", none, none⟩ : MastraDocChunk).heading = some h ∧ h ≠ "")
      ∧ (⟨"f.txt", some "Title", "body", none, none⟩ : MastraDocChunk).content ≠ "" :=
  mastra_parser_chunk_invariant "f.txt" ["preamble text", "# Title", "body"]
    ⟨"f.txt", some "Title", "body", none, none⟩ (by decide)

end CedarRetrieval

namespace CedarRetrieval

/-! ### C4/C5: `SemanticSearchService` (semantic_search.py) -/

/-- Python truthiness of an optional string (`None` and `""` are falsy), as
tested by `if not self.supabase_url or not self.supabase_key` and by
`a or b` on optional strings. -/
def credTruthy : Option String → Bool
  | none => false
  | some s => !(s == "")

/-- The constructed-service state the search path depends on: whether an
OpenAI client was initialized (semantic_search.py lines 45-51). -/
structure SemanticService where
  hasOpenai : Bool
deriving DecidableEq, Repr

/-- `SemanticSearchService.__init__` (semantic_search.py lines 30-51), as a
function of the effective credential values (constructor argument merged
with the environment variable): raises `ValueError` when the Supabase URL or
key is falsy, otherwise constructs the service with the OpenAI client
initialized iff an OpenAI API key is present. -/
def initSemanticService (supabaseUrl supabaseKey openaiApiKey : Option String) :
    Except String SemanticService :=
  if !credTruthy supabaseUrl || !credTruthy supabaseKey then
    .error "Supabase URL and key must be provided or set in environment variables"
  else .ok ⟨credTruthy openaiApiKey⟩

/-- The metadata fields of a Supabase row the service reads via
`metadata.get(...)`, with the Python defaults. -/
structure RowMeta where
  text : String := ""
  headers : List String := []
  sectionTitle : String := ""
  sourceLabel : Option String := none
  url : Option String := none
deriving DecidableEq, Repr

/-- One row of a Supabase response (`item.get(...)` fields; row similarity
values are modelled exactly as rationals). -/
structure SupaRow where
  id : Option String := none
  content : String := ""
  text : String := ""
  metadata : RowMeta := {}
  similarity : Rat := 0
deriving DecidableEq, Repr

/-- `SemanticSearchResult` (semantic_search.py lines 18-24). -/
structure SemanticSearchResult where
  content : String
  metadata : RowMeta
  similarity : Rat
  source : Option String := none
  id : Option String := none
deriving DecidableEq, Repr

/-- Outcomes of the external calls one `search_by_vector` invocation can
make: the OpenAI embedding request, the `match_documents` RPC
(`response.data`), and the fallback table query (`response.data`).  An
`.error` value models the call raising. -/
structure RemoteEnv where
  embed : Except String Unit
  rpcData : Except String (List SupaRow)
  tableData : Except String (List SupaRow)

/-- Python `str.lower()` (code-point-wise, ASCII-faithful). -/
def strLower (s : String) : String :=
  ⟨s.data.map Char.toLower⟩

/-- Worker for `pySplitWs`. -/
def pySplitWsGo : List Char → List Char → List String
  | [], buf => if buf = [] then [] else [⟨buf.reverse⟩]
  | c :: cs, buf =>
    if c.isWhitespace then
      if buf = [] then pySplitWsGo cs [] else ⟨buf.reverse⟩ :: pySplitWsGo cs []
    else pySplitWsGo cs (c :: buf)

/-- Python `str.split()` with no argument: split on whitespace runs,
producing no empty parts. -/
def pySplitWs (s : String) : List String :=
  pySplitWsGo s.data []

/-- Python `' '.join(strings)`. -/
def joinSpace (lines : List String) : String :=
  ⟨List.intercalate [' '] (lines.map String.data)⟩

/-- `sum(1 for term in query_terms if term in text)`. -/
def countTermsIn (queryTerms : List String) (text : String) : Nat :=
  (queryTerms.filter (fun t => containsSub t.data text.data)).length

/-- The per-row scoring of `_direct_search` (semantic_search.py lines
157-192): choose the text content (`metadata.text`, else `item.text or
item.content`), count query terms contained in it, normalize by the term
count, and add half-weighted boosts for terms found in the joined `headers`
and in `section_title`; the row becomes a result whose `source` is
`metadata.get('source_label') or metadata.get('url')`. -/
def directRowResult (queryTerms : List String) (row : SupaRow) : SemanticSearchResult :=
  let textContent :=
    if row.metadata.text ≠ "" then row.metadata.text
    else if row.text ≠ "" then row.text else row.content
  let contentLower := strLower textContent
  let base : Rat :=
    if queryTerms ≠ [] then (countTermsIn queryTerms contentLower : Rat) / (queryTerms.length : Rat)
    else 0
  let withHeaders : Rat :=
    base +
      (if row.metadata.headers ≠ [] then
        (if queryTerms ≠ [] then
          ((countTermsIn queryTerms (strLower (joinSpace row.metadata.headers)) : Rat)
              / (queryTerms.length : Rat)) * (1 / 2)
         else 0)
       else 0)
  let withTitle : Rat :=
    withHeaders +
      (if row.metadata.sectionTitle ≠ "" then
        (if queryTerms ≠ [] then
          ((countTermsIn queryTerms (strLower row.metadata.sectionTitle) : Rat)
              / (queryTerms.length : Rat)) * (1 / 2)
         else 0)
       else 0)
  ⟨textContent, row.metadata, withTitle,
    if credTruthy row.metadata.sourceLabel then row.metadata.sourceLabel else row.metadata.url,
    row.id⟩

/-- `SemanticSearchService._direct_search` (semantic_search.py lines
132-200): query rows for the product (outcome `env.tableData`; the remote
`limit * 3` row cap is part of that response), return `[]` on an empty
response, otherwise score every row, sort by similarity descending (Python's
stable sort), and return `results[:limit]`.  The surrounding `try/except`
turns any raising call into `[]`. -/
def directSearch (env : RemoteEnv) (q : String) (limit : Int) : List SemanticSearchResult :=
  match env.tableData with
  | .error _ => []
  | .ok rows =>
    if rows.isEmpty then []
    else
      let queryTerms := pySplitWs (strLower q)
      pySliceTo
        (List.insertionSort (fun a b => b.similarity ≤ a.similarity)
          (rows.map (directRowResult queryTerms)))
        limit

/-- The `try` body of `search_by_vector` (semantic_search.py lines 91-125):
without an OpenAI client, go straight to `_direct_search`; otherwise request
the embedding (which may raise), call the `match_documents` RPC (which may
raise), and map a nonempty `response.data` to results (empty data returns
`[]` with no fallback). -/
def searchByVectorBody (svc : SemanticService) (env : RemoteEnv) (q : String) (limit : Int) :
    Except String (List SemanticSearchResult) :=
  if !svc.hasOpenai then .ok (directSearch env q limit)
  else
    match env.embed with
    | .error e => .error e
    | .ok _ =>
      match env.rpcData with
      | .error e => .error e
      | .ok rows =>
        if !rows.isEmpty then
          .ok (rows.map (fun item =>
            ⟨item.content, item.metadata, item.similarity, item.metadata.sourceLabel, item.id⟩))
        else .ok []

/-- `SemanticSearchService.search_by_vector` (semantic_search.py lines
70-130): the `except` clause at lines 127-130 catches any error of the body
and falls back to `_direct_search`. -/
def searchByVector (svc : SemanticService) (env : RemoteEnv) (q : String) (limit : Int) :
    Except String (List SemanticSearchResult) :=
  match searchByVectorBody svc env q limit with
  | .ok rs => .ok rs
  | .error _ => .ok (directSearch env q limit)

/-- **C5.** Once the service is constructed, `search_by_vector` never raises
to its caller: for every outcome of the external calls it returns `.ok`; any
error in embedding generation or the remote similarity call makes it return
exactly the direct client-side scan's results; and if that fallback's own
table query also fails, the call returns the empty list. -/
theorem search_by_vector_never_raises (svc : SemanticService) (env : RemoteEnv)
    (q : String) (limit : Int) :
    (∃ rs, searchByVector svc env q limit = .ok rs) ∧
    (svc.hasOpenai = true →
      (∃ e, env.embed = .error e) ∨ (∃ e, env.rpcData = .error e) →
      searchByVector svc env q limit = .ok (directSearch env q limit)) ∧
    ((∃ e, env.tableData = .error e) → directSearch env q limit = []) := by
  refine ⟨?_, ?_, ?_⟩
  · unfold searchByVector
    split
    · exact ⟨_, rfl⟩
    · exact ⟨_, rfl⟩
  · intro hop herr
    rcases herr with ⟨e, he⟩ | ⟨e, he⟩
    · simp [searchByVector, searchByVectorBody, hop, he]
    · cases hemb : env.embed with
      | error e2 => simp [searchByVector, searchByVectorBody, hop, hemb]
      | ok u => simp [searchByVector, searchByVectorBody, hop, hemb, he]
  · rintro ⟨e, he⟩
    unfold directSearch
    rw [he]

/-- An environment in which every external call fails. -/
def envAllFail : RemoteEnv :=
  ⟨.error "embedding request failed", .error "rpc failed", .error "table query failed"⟩

/-- Witness for `search_by_vector_never_raises` with an OpenAI-enabled
service and every external call failing. -/
theorem search_by_vector_never_raises_witness :
    (∃ rs, searchByVector ⟨true⟩ envAllFail "chat components" 5 = .ok rs) ∧
    searchByVector ⟨true⟩ envAllFail "chat components" 5
      = .ok (directSearch envAllFail "chat components" 5) ∧
    directSearch envAllFail "chat components" 5 = [] :=
  ⟨(search_by_vector_never_raises ⟨true⟩ envAllFail "chat components" 5).1,
   (search_by_vector_never_raises ⟨true⟩ envAllFail "chat components" 5).2.1 rfl
     (Or.inl ⟨"embedding request failed", rfl⟩),
   (search_by_vector_never_raises ⟨true⟩ envAllFail "chat components" 5).2.2
     ⟨"table query failed", rfl⟩⟩

/-- **C4, counterexample.** Missing vector-store credentials *do* surface as
a caller-visible error: with the Supabase URL and key absent (and an OpenAI
key present), `SemanticSearchService.__init__` raises `ValueError` instead
of constructing a fallback-only adapter. -/
theorem semantic_init_missing_store_creds_counterexample :
    initSemanticService none none (some "sk-test")
      = .error "Supabase URL and key must be provided or set in environment variables" := rfl

/-- **C4, amended.** Missing *embedding* credentials never surface as a
caller-visible error: whenever the vector-store (Supabase) credentials are
present and the OpenAI key is absent, construction succeeds with no OpenAI
client and `search_by_vector` takes the local fallback path; but absent
vector-store credentials make construction itself raise `ValueError`. -/
theorem semantic_missing_embed_creds_fallback (url key okey : Option String)
    (env : RemoteEnv) (q : String) (limit : Int)
    (hurl : credTruthy url = true) (hkey : credTruthy key = true)
    (hokey : credTruthy okey = false) :
    initSemanticService url key okey = .ok ⟨false⟩ ∧
    searchByVector ⟨false⟩ env q limit = .ok (directSearch env q limit) := by
  constructor
  · unfold initSemanticService
    rw [hurl, hkey]
    simp [hokey]
  · simp [searchByVector, searchByVectorBody]

/-- Witness for `semantic_missing_embed_creds_fallback` at a concrete
configuration with Supabase credentials but no OpenAI key. -/
theorem semantic_missing_embed_creds_fallback_witness :
    initSemanticService (some "https://x.supabase.co") (some "anon-key") none = .ok ⟨false⟩ ∧
    searchByVector ⟨false⟩ envAllFail "voice" 5 = .ok (directSearch envAllFail "voice" 5) :=
  semantic_missing_embed_creds_fallback (some "https://x.supabase.co") (some "anon-key") none
    envAllFail "voice" 5 (by decide) (by decide) (by decide)

end CedarRetrieval

namespace CedarRetrieval

/-! ### C1: two-file corpus, line-accurate citation -/

/-- Worker for `pySplitlines`: split the code points on `'\n'`. -/
def splitOnNLGo : List Char → List Char → List (List Char)
  | [], buf => [buf.reverse]
  | c :: cs, buf =>
    if c = '\n' then buf.reverse :: splitOnNLGo cs [] else splitOnNLGo cs (c :: buf)

/-- Python `str.splitlines()` for `'\n'`-terminated text: empty text gives no
lines, and a single trailing newline produces no trailing empty line. -/
def pySplitlines (s : String) : List String :=
  if s.data.isEmpty then []
  else
    let ps := splitOnNLGo s.data []
    (if ps.getLast? = some [] then ps.dropLast else ps).map (fun l => ⟨l⟩)

/-- Worker for `DocsIndex._split_markdown` (docs.py lines 513-528): heading
lines (leading `#`) flush the buffer and set the current heading to
`line.lstrip("# ")`; other lines accumulate; the final buffer is flushed. -/
def splitMarkdownGo : List String → Option String → List String → List (Option String × List String)
  | [], h, buf => if buf = [] then [] else [(h, buf)]
  | l :: ls, h, buf =>
    if strStartsWith l "#" then
      (if buf = [] then [] else [(h, buf)]) ++
        splitMarkdownGo ls (some ⟨l.data.dropWhile (fun c => c = '#' || c = ' ')⟩) []
    else splitMarkdownGo ls h (buf ++ [l])

/-- `DocsIndex._split_markdown` (docs.py lines 513-529), including the final
`(h, "\n".join(b).strip())` projection. -/
def splitMarkdown (text : String) : List (Option String × String) :=
  (splitMarkdownGo (pySplitlines text) none []).map (fun p => (p.1, pyStrip (joinNL p.2)))

/-- The markdown/text branch of `DocsIndex._load` (docs.py lines 55-62):
each section of a file becomes a `DocChunk` carrying the file path. -/
def loadMarkdownFile (path : String) (text : String) : List DocChunk :=
  (splitMarkdown text).map (fun hc => ⟨path, hc.1, hc.2⟩)

/-- Loading a corpus given as an ordered list of (path, text) markdown files
(the directory walk of `DocsIndex._load` visits files in encounter order). -/
def loadMarkdownFiles (files : List (String × String)) : List DocChunk :=
  (files.map (fun f => loadMarkdownFile f.1 f.2)).flatten

/-- Modelled from the spec: the Citation Locator (spec §4.4) is not present
under `src/`; this is its offset table — "a monotonically increasing table of
cumulative character offsets, one entry per line start (including
position 0)". -/
def lineStarts (text : String) : List Nat :=
  0 :: (List.range text.data.length).filterMap (fun i =>
    if text.data.get? i = some '\n' then some (i + 1) else none)

/-- Modelled from the spec: binary-searching the offset table for the
greatest offset `≤ i` yields, 1-based, exactly the number of table entries
`≤ i` (the table is strictly increasing), which is how it is computed
here. -/
def lineOfIndex (text : String) (i : Nat) : Nat :=
  ((lineStarts text).filter (fun st => st ≤ i)).length

/-- An ASCII `\w` word character (letters, digits, underscore). -/
def isWordChar (c : Char) : Bool :=
  ('a' ≤ c && c ≤ 'z') || ('A' ≤ c && c ≤ 'Z') || ('0' ≤ c && c ≤ '9') || c = '_'

/-- Worker for `matchIndices`: a match starts at every position that is not
preceded by a word character and where the lowered text continues with the
token (the `\b tok \w* \b` matches of a case-insensitive regex). -/
def matchIndicesGo (tok : List Char) : List Char → Nat → Bool → List Nat
  | [], _, _ => []
  | c :: cs, i, prevWord =>
    (if !prevWord && tok.isPrefixOf ((c :: cs).map Char.toLower) then [i] else []) ++
      matchIndicesGo tok cs (i + 1) (isWordChar c)

/-- Modelled from the spec: the literal character indexes at which a token
(and its suffix variants) matches, case-insensitively at word boundaries, in
a retained raw file text (spec §4.4). -/
def matchIndices (tok : List Char) (text : String) : List Nat :=
  matchIndicesGo tok text.data 0 false

/-- Modelled from the spec: "collect up to a fixed cap (e.g., 10) of such
line numbers per matched token, de-duplicated and ordered by first
appearance" (spec §4.4). -/
def tokenLines (tok : List Char) (text : String) : List Nat :=
  (dedupFirst ((matchIndices tok text).map (lineOfIndex text))).take 10

/-- Modelled from the spec: "aggregate the minimum and maximum across all
matched tokens into an approximate `{start_line, end_line}` span"; the
citation is omitted when no token line exists (spec §4.4). -/
def citationSpan (toks : List (List Char)) (text : String) : Option (Nat × Nat) :=
  match (toks.map (fun t => tokenLines t text)).flatten with
  | [] => none
  | x :: xs => some (xs.foldl min x, xs.foldl max x)

/-- Modelled from the spec: the citation of a search result, computed from
its matched tokens over the retained raw text of its source file. -/
def resultCitation (r : DocsResult) (rawText : String) : Option (Nat × Nat) :=
  citationSpan (r.matchedTokens.map Prod.fst) rawText

/-- File A of the spec's two-file scenario: the word "token" occurs exactly
once, on line 10. -/
def fileAText : String :=
  "alpha beta\ngamma delta\nepsilon zeta\neta theta\niota kappa\nlambda mu\nnu xi\nomicron pi\nrho sigma\nthe token appears here"

/-- File B of the spec's two-file scenario: no occurrence of the query
token. -/
def fileBText : String :=
  "unrelated words only\nnothing of interest here"

/-- The two-file corpus, in encounter order. -/
def twoFileCorpus : List (String × String) :=
  [("A.md", fileAText), ("B.md", fileBText)]

/-- **C1.** Over the index holding exactly the chunks extracted from the
two-file corpus, `search("token", 5)` returns exactly one result; that
result's source is file A; no result for file B appears; and the
spec-modelled citation of the result over file A's retained raw text
satisfies `start_line == end_line == 10`. -/
theorem two_file_citation_scenario :
    (docsSearch (loadMarkdownFiles twoFileCorpus) "token" 5).length = 1 ∧
    ((docsSearch (loadMarkdownFiles twoFileCorpus) "token" 5).head?.map (fun r => r.source))
      = some "A.md" ∧
    (∀ r ∈ docsSearch (loadMarkdownFiles twoFileCorpus) "token" 5, r.source ≠ "B.md") ∧
    ((docsSearch (loadMarkdownFiles twoFileCorpus) "token" 5).head?.map
      (fun r => resultCitation r fileAText)) = some (some (10, 10)) := by
  decide

end CedarRetrieval

namespace CedarRetrieval

/-! ### C10: the builtin-seeded Cedar docs index (docs.py lines 24-30, 73-511) -/

/-- The 20 curated chunks appended by `DocsIndex._load_builtin_docs`
(docs.py lines 73-511), transcribed verbatim. -/
def builtinDocChunks : List DocChunk := [
  ⟨"https://docs.cedarcopilot.com/introduction/overview",
   some "Introduction to Cedar-OS",
   "Cedar-OS is an open-source framework for building the next generation of AI native software. For the first time in history, products can come to life. Cedar helps you build something with life. Core philosophy: AI-native applications where AI agents can read and write application state, coordinate complex workflows, and provide seamless user experiences."⟩,
  ⟨"https://docs.cedarcopilot.com/introduction/overview",
   some "Cedar-OS Core Features",
   "Core Features:\n- Streaming & Tool Calls: Real-time message streaming and agent tool execution\n- Voice Integration: Voice-powered agent interactions (capture, transcribe, synthesize)\n- State Access: Let agents read and write application state via centralized agentic state\n- Diff & History: Track what AI changes, allow user approvals, and manage history\n- Chat: Floating, SidePanel, Caption, or Embedded chat components\n- Spells: Powerful agent interactions and workflows\n- Mentions: Context-aware mention system for chat (@mentions)\n- Agent Connection Modules: Connect to various AI backends and services\n- Component Library: Pre-built UI components you own the code for, Shadcn style"⟩,
  ⟨"https://docs.cedarcopilot.com/getting-started/getting-started",
   some "Cedar-OS Installation",
   "Cedar-OS installation appears to use npm packages. Based on actual documentation, the framework provides React components and hooks. Key imports include:\n- FloatingCedarChat, ChatInput components\n- useMentionProvider, useRegisterState, useStateBasedMentionProvider hooks\n- Chat positioning options: floating (left/right), side panel, caption style\nNote: Exact package names need verification from official docs"⟩,
  ⟨"https://docs.cedarcopilot.com/getting-started/getting-started",
   some "Basic Cedar-OS Setup Pattern",
   "Basic setup pattern from documentation:\n1. Import chat components: import \x7b FloatingCedarChat \x7d from \x27@/chatComponents/FloatingCedarChat\x27\n2. Configure chat with props: side, title, dimensions, resizable\n3. Set up mention providers using useMentionProvider hook\n4. Register application state with useRegisterState for agent access\n5. Configure streaming backend for real-time responses"⟩,
  ⟨"https://docs.cedarcopilot.com/chat/chat-overview",
   some "Chat Component Types",
   "Cedar-OS provides multiple chat interface types:\n\n1. Caption Chat: A caption-style chat interface that appears at the bottom center of the screen, perfect for overlay-style interactions. Great for AI assistants that provide contextual help without taking up dedicated screen space. Realized that in conversation, you don\x27t need to see entire history all the time, just the latest message.\n\n2. Floating Chat: A floating chat window that can be positioned on the left or right side of the screen with expand/collapse functionality. Perfect for assistance that doesn\x27t interfere with the main application.\n\n3. Side Panel Chat: A side panel chat that pushes your main content to make room for the chat interface. This is if you want the chat to not overlap with any elements, and always have its own dedicated spot."⟩,
  ⟨"https://docs.cedarcopilot.com/chat/chat-overview",
   some "FloatingCedarChat Component",
   "FloatingCedarChat component usage:\n\nimport \x7b FloatingCedarChat \x7d from \x27@/chatComponents/FloatingCedarChat\x27;\n\nfunction App() \x7b\n  return (\n    <div>\n      \x7b/* Your main content */\x7d\n      <FloatingCedarChat\n        side=\x27right\x27\n        title=\x27Assistant\x27\n        collapsedLabel=\x27How can I help you today?\x27\n        dimensions=\x7b\x7b\n          width: 400,\n          height: 600,\n          minWidth: 350,\n          minHeight: 400,\n        \x7d\x7d\n        resizable=\x7btrue\x7d\n      />\n    </div>\n  );\n\x7d\n\nProps: side (\x27left\x27|\x27right\x27), title, collapsedLabel, companyLogo, dimensions, resizable"⟩,
  ⟨"https://docs.cedarcopilot.com/chat/streaming",
   some "Cedar-OS Streaming Implementation",
   "Cedar-OS enables real-time streaming responses in chat components. You can disable streaming by setting stream=\x7bfalse\x7d on any chat component or ChatInput.\n\nCedar uses data-only SSE (Server-Sent Events) streams. The server sends data: messages over a single HTTP connection. The stream mixes plain text and structured JSON, sent as newline-delimited chunks prefixed with \x27data:\x27.\n\nUnder the hood, the server emits:\n- Text chunks for incremental message rendering\n- JSON objects for structured updates\nThe client parses each data: line as it arrives and handles parsed text or JSON accordingly. This enables real-time, mixed-format updates with minimal overhead."⟩,
  ⟨"https://docs.cedarcopilot.com/chat/streaming",
   some "Streaming Backend Requirements",
   "For proper SSE streaming in Cedar-OS:\n- Set Content-Type: text/event-stream header\n- Set Cache-Control: no-cache header\n- Send chunks prefixed with \x27data: \x27 and terminated by double newlines\n- Flush responses periodically to avoid buffering\n- Handle client disconnects gracefully\n- Support both text chunks and JSON objects in the same stream\n- Implement proper error handling for stream interruptions"⟩,
  ⟨"https://docs.cedarcopilot.com/agent-input-context/mentions",
   some "Cedar-OS Mentions System",
   "Cedar-OS provides a comprehensive @ mentions system for contextual references in chat. The system allows users to reference application entities (users, tasks, files, etc.) using @ symbols, which then provide structured context to AI agents.\n\nKey components:\n- useMentionProvider: Register custom mention providers\n- useStateBasedMentionProvider: Auto-create mentions from application state\n- useRegisterState: Register application state for agent access\n- Multiple trigger characters: @, #, / for different entity types\n- Rich rendering: Custom UI for mention menus, editor items, and context badges"⟩,
  ⟨"https://docs.cedarcopilot.com/agent-input-context/mentions",
   some "State-Based Mentions Implementation",
   "useStateBasedMentionProvider example:\n\nimport \x7b useState \x7d from \x27react\x27;\nimport \x7b useRegisterState, useStateBasedMentionProvider \x7d from \x27cedar-os\x27;\n\nfunction TodoApp() \x7b\n  const [todos, setTodos] = useState([\n    \x7b id: 1, text: \x27Buy groceries\x27, category: \x27shopping\x27 \x7d,\n    \x7b id: 2, text: \x27Call dentist\x27, category: \x27health\x27 \x7d,\n  ]);\n\n  // Register the state\n  useRegisterState(\x7b\n    key: \x27todos\x27,\n    value: todos,\n    setValue: setTodos,\n    description: \x27Todo items\x27,\n  \x7d);\n\n  // Enable mentions for todos\n  useStateBasedMentionProvider(\x7b\n    stateKey: \x27todos\x27,\n    trigger: \x27@\x27,\n    labelField: \x27text\x27,\n    searchFields: [\x27text\x27, \x27category\x27],\n    description: \x27Todo items\x27,\n    icon: \x27\uF8FF\u00FC\u00EC\u00F9\x27,\n    color: \x27#3b82f6\x27,\n  \x7d);\n\n  return <ChatInput />;\n\x7d"⟩,
  ⟨"https://docs.cedarcopilot.com/agent-input-context/mentions",
   some "Custom Mention Providers",
   "useMentionProvider for custom entities:\n\nimport \x7b useMentionProvider \x7d from \x27cedar-os\x27;\n\nfunction UserMentions() \x7b\n  const users = [\n    \x7b id: 1, name: \x27Alice Johnson\x27, email: \x27alice@company.com\x27, role: \x27Designer\x27 \x7d,\n    \x7b id: 2, name: \x27Bob Smith\x27, email: \x27bob@company.com\x27, role: \x27Developer\x27 \x7d,\n  ];\n\n  useMentionProvider(\x7b\n    id: \x27users\x27,\n    trigger: \x27@\x27,\n    label: \x27Users\x27,\n    description: \x27Team members\x27,\n    icon: \x27\uF8FF\u00FC\u00EB\u00A7\x27,\n    getItems: (query) => \x7b\n      const filtered = query\n        ? users.filter(user =>\n            user.name.toLowerCase().includes(query.toLowerCase())\n          )\n        : users;\n      return filtered.map(user => (\x7b\n        id: user.id.toString(),\n        label: \u0060$\x7buser.name\x7d ($\x7buser.role\x7d)\u0060,\n        data: user,\n        metadata: \x7b icon: \x27\uF8FF\u00FC\u00EB\u00A7\x27, color: \x27#10b981\x27 \x7d,\n      \x7d));\n    \x7d,\n    toContextEntry: (item) => (\x7b\n      id: item.id,\n      source: \x27mention\x27,\n      data: item.data,\n      metadata: \x7b label: item.label, icon: \x27\uF8FF\u00FC\u00EB\u00A7\x27, color: \x27#10b981\x27 \x7d,\n    \x7d),\n  \x7d);\n\n  return <ChatInput />;\n\x7d"⟩,
  ⟨"https://docs.cedarcopilot.com/agent-input-context/mentions",
   some "Multiple Mention Triggers",
   "Cedar-OS supports multiple mention triggers in the same chat:\n\n- @ for users: useMentionProvider with trigger: \x27@\x27\n- # for channels/topics: useMentionProvider with trigger: \x27#\x27\n- / for commands: useMentionProvider with trigger: \x27/\x27\n\nEach provider can have:\n- Custom getItems function for search and filtering\n- Custom renderMenuItem for mention menu display\n- Custom renderEditorItem for inline editor display\n- Custom renderContextBadge for context visualization\n- Async support for fetching items from APIs\n- Rich metadata and validation"⟩,
  ⟨"https://docs.cedarcopilot.com/agent-input-context/mentions",
   some "Mention Context for Agents",
   "When users include mentions in their messages, agents receive structured context:\n\nExample: User types \x27Update the status of @task-123 to completed\x27\nAgent receives:\n\x7b\n  message: \x27Update the status of @task-123 to completed\x27,\n  mentions: [\n    \x7b\n      id: \x27task-123\x27,\n      type: \x27tasks\x27,\n      data: \x7b\n        id: \x27task-123\x27,\n        title: \x27Implement user authentication\x27,\n        status: \x27in-progress\x27,\n        assignee: \x27Alice\x27\n      \x7d,\n      position: \x7b start: 23, end: 32 \x7d\n    \x7d\n  ]\n\x7d\n\nThis allows agents to have full context about referenced entities."⟩,
  ⟨"https://docs.cedarcopilot.com/agent-input-context/agent-input-context",
   some "Agent Input Context System",
   "Cedar-OS provides comprehensive agent input context to ground AI behavior. The system allows agents to access application state, user context, and UI state automatically or on-demand.\n\nKey patterns:\n- Keep context minimal but sufficient; prefer references over large data blobs\n- Use stable identifiers for entities referenced in chat\n- Sanitize PII and sensitive fields before sending to agents\n- Provide fallbacks when state is incomplete or stale\n- Support both reactive subscriptions and explicit context inclusion"⟩,
  ⟨"https://docs.cedarcopilot.com/agent-input-context/subscribing-state-to-input",
   some "State Subscription for Agents",
   "Cedar-OS allows subscribing parts of application state so they are automatically included in prompts to keep context fresh and reactive.\n\nBest practices for state subscription:\n- Limit subscriptions to relevant slices to control token usage\n- Debounce updates or batch to avoid excessive prompt churn\n- Provide fallbacks when state is incomplete or stale\n- Use fine-grained subscriptions rather than subscribing to entire state trees\n- Consider privacy and security when auto-including state in prompts"⟩,
  ⟨"https://docs.cedarcopilot.com/agentic-state/agentic-state",
   some "Cedar-OS Agentic State",
   "Cedar-OS provides centralized, reactive state management specifically designed for AI agents, workflows, and user context. The agentic state system supports coordination, persistence, and fine-grained subscriptions across the application.\n\nCore agentic state model:\n- Partitions: agent-specific, workflow-specific, and global context\n- Subscriptions: fine-grained listeners for reactive updates\n- Persistence: optional durability across sessions\n- Coordination: enables multi-agent workflows with shared context\n- Access Control: permissions and validation for state modifications"⟩,
  ⟨"https://docs.cedarcopilot.com/agentic-state/agentic-actions",
   some "Cedar-OS Agentic Actions",
   "Agentic Actions in Cedar-OS trigger and track domain actions, workflows, and multi-step tasks initiated by agents or users. Useful for orchestrating multiple specialized agents working together.\n\nAgentic Actions lifecycle:\n- Created \u201A\u00DC\u00ED Running \u201A\u00DC\u00ED Succeeded/Failed (with retries and timeouts as needed)\n- Emit progress updates for UI and orchestration\n- Log inputs/outputs for auditability\n- Support cancellation and rollback where appropriate\n- Enable coordination between multiple agents on complex tasks"⟩,
  ⟨"https://docs.cedarcopilot.com/agentic-state/diff-and-history-manager",
   some "Diff & History Manager (Beta)",
   "Cedar-OS Diff & History Manager tracks changes proposed/made by agents, shows diffs for user approval, and maintains modification history to support auditing and undo/redo flows.\n\nDiff approval flows:\n- Present proposed changes for review with clear diffs\n- Allow accept/reject/partial-apply where supported\n- Keep an immutable history for compliance and rollback\n- Support collaborative editing with conflict resolution\n- Provide audit trails for all agent-initiated changes"⟩,
  ⟨"https://docs.cedarcopilot.com/architecture",
   some "Cedar-OS Architecture Overview",
   "Cedar-OS is built with a component-based architecture optimized for AI-native applications:\n\n- Component Layer: React components with AI-aware hooks and state management\n- State Layer: Centralized agentic state with fine-grained reactivity\n- Agent Layer: AI agent coordination and workflow orchestration\n- Integration Layer: Backends, APIs, and external service connections\n- UI Layer: Flexible chat interfaces and interaction patterns\n\nThe architecture separates concerns while enabling deep integration between AI agents and application state, creating truly AI-native user experiences."⟩,
  ⟨"https://docs.cedarcopilot.com/getting-started/connecting-to-an-agent",
   some "Agent Backend Connection",
   "Cedar-OS connects to AI backends through Agent Connection Modules. The system supports various AI providers and frameworks:\n\n- Direct integration with language model APIs (OpenAI, Anthropic, etc.)\n- Mastra framework integration for advanced workflows\n- Custom backend implementations\n- Streaming response support with SSE\n- Tool calling and function execution\n- Multi-agent coordination and handoffs"⟩
]

end CedarRetrieval

namespace CedarRetrieval

/-- `DocsIndex.__init__` (docs.py lines 24-30) at the level of the chunk
list: the curated builtin chunks are always seeded first; chunks loaded from
a docs path (whose filesystem contents are abstracted by `loaded`) are
appended only when a path was supplied (and exists — a missing or empty load
contributes `[]`). -/
def initDocsChunks (docsPath : Option String) (loaded : List DocChunk) : List DocChunk :=
  builtinDocChunks ++ (match docsPath with | none => [] | some _ => loaded)

/-- The `num_chunks` field of `DocsIndex.describe` (docs.py line 597). -/
def describeNumChunks (chunks : List DocChunk) : Nat :=
  chunks.length

theorem scoredAux_ne_nil {f : α → Nat × List (List Char × Nat)} :
    ∀ (i : Nat) (cs : List α) (c : α), c ∈ cs → 0 < (f c).1 → scoredAux f i cs ≠ [] := by
  intro i cs
  induction cs generalizing i with
  | nil => intro c hc _; exact absurd hc (List.not_mem_nil c)
  | cons d ds ih =>
    intro c hc hpos
    by_cases hd : 0 < (f d).1
    · simp [scoredAux, hd]
    · rcases List.mem_cons.mp hc with rfl | hc
      · exact absurd hpos hd
      · simpa [scoredAux, hd] using ih (i + 1) c hc hpos

theorem docsSearch_ne_nil (chunks : List DocChunk) (q : String) (limit : Int) (c : DocChunk)
    (hq : ¬ q = "") (ht : ¬ queryTokensDocs q = [])
    (hc : c ∈ chunks) (hpos : 0 < (docsScoreFn (queryTokensDocs q) c).1)
    (hlim : 1 ≤ limit) :
    docsSearch chunks q limit ≠ [] := by
  unfold docsSearch docsRanked
  rw [if_neg hq]
  show (if queryTokensDocs q = [] then []
       else (rankEntries (scoredAux (docsScoreFn (queryTokensDocs q)) 0 chunks)).take
         (max 0 limit).toNat).map _ ≠ []
  rw [if_neg ht]
  intro hcontra
  have hne : scoredAux (docsScoreFn (queryTokensDocs q)) 0 chunks ≠ [] :=
    scoredAux_ne_nil 0 chunks c hc hpos
  have hlen := congrArg List.length hcontra
  rw [List.length_map, List.length_take, List.length_nil] at hlen
  have hrank : (rankEntries (scoredAux (docsScoreFn (queryTokensDocs q)) 0 chunks)).length
      = (scoredAux (docsScoreFn (queryTokensDocs q)) 0 chunks).length :=
    (List.perm_insertionSort entKeyLe _).length_eq
  rw [hrank] at hlen
  have hzero : (scoredAux (docsScoreFn (queryTokensDocs q)) 0 chunks).length = 0 := by omega
  exact hne (List.length_eq_zero.mp hzero)

/-- **C10.** The Cedar docs index is never empty: for every docs path and
every load outcome, the builtin chunks are a prefix of the index's chunk
list, `describe()`'s chunk count is at least the builtin chunk count, and
even with `docs_path = None` a search (here for `"cedar"`) returns
results. -/
theorem builtin_seed_invariant :
    (∀ (p : Option String) (loaded : List DocChunk),
      builtinDocChunks <+: initDocsChunks p loaded ∧
      builtinDocChunks.length ≤ describeNumChunks (initDocsChunks p loaded)) ∧
    docsSearch (initDocsChunks none []) "cedar" 5 ≠ [] := by
  constructor
  · intro p loaded
    refine ⟨⟨_, rfl⟩, ?_⟩
    unfold describeNumChunks initDocsChunks
    rw [List.length_append]
    omega
  · exact docsSearch_ne_nil _ "cedar" 5 (builtinDocChunks.get ⟨0, by decide⟩)
      (by decide) (by decide)
      (List.mem_append_left _ (List.get_mem builtinDocChunks 0 (by decide)))
      (by decide) (by decide)

end CedarRetrieval
